import Mathlib

/-!
Verification of the Sovereign Merchant reconciliation core.

This file shallowly embeds the parts of the repository that the checked
properties are about:

* the `webhook_events` / `reconciliations` persistence layer declared in
  `src/core/src/models/database.ts` (`initializeDatabase`),
* the inbound BTCPay webhook handler and the api-key route in
  `src/core/src/api/routes.ts` (`webhookRoutes`, `btcpayRoutes`),
* `BTCPayServer.getWebhookStatus` from `src/core/src/services/btcpay.ts`,
* the derived `reconciliationStatus` of the Invoice Aggregator, which is not
  implemented in the repository and is modelled from the specification.

External library calls (`crypto.createHmac(...).digest('hex')`, `JSON.parse`,
`JSON.stringify`) are kept abstract as explicit function parameters; the SQLite
constraints (PRIMARY KEY, UNIQUE, CHECK) are modelled explicitly in the insert
operations.  Theorems about the embedded operations follow the definitions.
-/

namespace SovereignMerchant

/-! ## The reconciliations table (src/core/src/models/database.ts, lines 30-44)

`CREATE TABLE IF NOT EXISTS reconciliations` with
`id TEXT PRIMARY KEY`, `btcpay_invoice_id TEXT UNIQUE`,
`quickbooks_transaction_id TEXT UNIQUE`, NOT NULL amounts and currency, and
`status TEXT NOT NULL DEFAULT 'pending' CHECK (status IN
('pending','processing','completed','failed'))`.
-/

/-- One row of the `reconciliations` table.  Nullable columns are `Option`;
`amount_sats`, `amount_fiat`, `currency` are NOT NULL so they are plain. -/
structure ReconRow where
  id : String
  btcpay_invoice_id : Option String
  quickbooks_transaction_id : Option String
  amount_sats : Int
  amount_fiat : Int
  currency : String
  status : String
  error_message : Option String
deriving DecidableEq, Repr

/-- The CHECK constraint on `reconciliations.status`:
`status IN ('pending', 'processing', 'completed', 'failed')`. -/
def reconStatusAllowed (s : String) : Bool :=
  s == "pending" || s == "processing" || s == "completed" || s == "failed"

/-- Inserting a row into `reconciliations`, with SQLite semantics: the CHECK
constraint on `status`, the PRIMARY KEY on `id`, and the UNIQUE constraints on
`btcpay_invoice_id` and `quickbooks_transaction_id` (NULLs never conflict under
SQLite UNIQUE, hence the `isSome` guards). -/
def insertReconciliation (t : List ReconRow) (r : ReconRow) :
    Except String (List ReconRow) :=
  if !(reconStatusAllowed r.status) then
    .error "CHECK constraint failed: reconciliations"
  else if t.any (fun q => q.id == r.id) then
    .error "UNIQUE constraint failed: reconciliations.id"
  else if r.btcpay_invoice_id.isSome
      && t.any (fun q => q.btcpay_invoice_id == r.btcpay_invoice_id) then
    .error "UNIQUE constraint failed: reconciliations.btcpay_invoice_id"
  else if r.quickbooks_transaction_id.isSome
      && t.any (fun q => q.quickbooks_transaction_id == r.quickbooks_transaction_id) then
    .error "UNIQUE constraint failed: reconciliations.quickbooks_transaction_id"
  else
    .ok (t ++ [r])

/-- Whether an insert into `reconciliations` succeeds. -/
def insertSucceeds (t : List ReconRow) (r : ReconRow) : Bool :=
  match insertReconciliation t r with
  | .ok _ => true
  | .error _ => false

/-- No two rows of the table carry the same non-null `btcpay_invoice_id`. -/
def invoiceIdsDistinct (t : List ReconRow) : Prop :=
  t.Pairwise (fun a b => ∀ i, a.btcpay_invoice_id = some i →
    b.btcpay_invoice_id ≠ some i)

/-! ## The inbound webhook handler (src/core/src/api/routes.ts, lines 280-422)

The handler reads the `btcpay-sig` header and rejects it with 400 when it is
falsy (`if (!signature)`: absent or the empty string), looks up the active
webhook secret in `webhook_configs`, recomputes
`"sha256=" + hmacSha256Hex(secret, rawBody)`, compares with
`crypto.timingSafeEqual(Buffer.from(signature),
Buffer.from(expectedSignature))` — a comparison of UTF-8 byte buffers, not of
character sequences — parses the body as JSON, and inserts a row into
`webhook_events` under a freshly generated id
`webhook_${Date.now()}_${Math.random()...}`.
-/

/-- The result of `JSON.parse` as the handler inspects it: a parse failure
(throw), the JSON value `null` (rejected by `!payload`), a non-object value
(rejected by `typeof payload !== 'object'`), or an object carrying the optional
`type`, `invoiceId` and `storeId` fields. -/
inductive JsValue where
  | jsNull
  | nonObject
  | obj (type invoiceId storeId : Option String)
deriving DecidableEq, Repr

/-- The external library functions the handler calls, kept abstract:
`hmacHex secret body` models
`crypto.createHmac('sha256', secret).update(body).digest('hex')`;
`parse` models `JSON.parse` (`none` = throw); `stringify` models
`JSON.stringify`. -/
structure ExtFns where
  hmacHex : String → String → String
  parse : String → Option JsValue
  stringify : JsValue → String

/-- One row of `webhook_configs` as the handler reads it
(`SELECT id, secret FROM webhook_configs WHERE active = 1 LIMIT 1`). -/
structure WebhookConfig where
  id : String
  secret : String
  active : Bool
deriving DecidableEq, Repr

/-- The secret of the first active webhook config, if any
(`WHERE active = 1 LIMIT 1`). -/
def activeSecret (cfgs : List WebhookConfig) : Option String :=
  ((cfgs.filter (fun c => c.active)).head?).map (fun c => c.secret)

/-- One row of the `webhook_events` table as the handler inserts it
(`INSERT INTO webhook_events (id, event_type, invoice_id, store_id, payload)`). -/
structure EventRow where
  id : String
  event_type : String
  invoice_id : Option String
  store_id : Option String
  payload : String
deriving DecidableEq, Repr

/-- JavaScript `x || d` for an optional string `x` and a string default:
`undefined` and the empty string are falsy. -/
def jsOrDefault (o : Option String) (d : String) : String :=
  match o with
  | some s => if s.isEmpty then d else s
  | none => d

/-- JavaScript `x || null` for an optional string: `undefined` and the empty
string become `null`. -/
def jsOrNull (o : Option String) : Option String :=
  match o with
  | some s => if s.isEmpty then none else some s
  | none => none

/-- The UTF-8 encoding of one character (the standard 1-to-4-byte layout,
written with division and remainder instead of shifts and masks).  This is how
`Buffer.from(string)` turns each character into bytes. -/
def utf8Encode (c : Char) : List Nat :=
  if c.toNat < 128 then [c.toNat]
  else if c.toNat < 2048 then
    [192 + c.toNat / 64, 128 + c.toNat % 64]
  else if c.toNat < 65536 then
    [224 + c.toNat / 4096, 128 + (c.toNat / 64) % 64, 128 + c.toNat % 64]
  else
    [240 + c.toNat / 262144, 128 + (c.toNat / 4096) % 64,
     128 + (c.toNat / 64) % 64, 128 + c.toNat % 64]

/-- `Buffer.from(s)`: the UTF-8 byte sequence of a string.  Its length is the
byte length of the string, which exceeds the character count as soon as the
string contains a non-ASCII character. -/
def strBytes (s : String) : List Nat :=
  s.data.flatMap utf8Encode

/-- The byte-by-byte core of `crypto.timingSafeEqual`: it walks both buffers to
the end without short-circuiting, returning the number of positions compared
together with the accumulated equality, so its work is a function of the
length alone, not of where the first difference sits. -/
def ctCompare : List Nat → List Nat → Nat × Bool
  | [], [] => (0, true)
  | [], _ :: _ => (0, false)
  | _ :: _, [] => (0, false)
  | x :: xs, y :: ys =>
    let r := ctCompare xs ys
    (r.1 + 1, (x == y) && r.2)

/-- `crypto.timingSafeEqual(a, b)` on byte buffers: throws a `RangeError` when
the buffers differ in byte length, otherwise compares them in constant time. -/
def timingSafeEqual (a b : List Nat) : Except String Bool :=
  if a.length = b.length then .ok (ctCompare a b).2
  else .error "RangeError: Input buffers must have the same byte length"

/-- The distinct replies of the webhook handler.  `sigLengthError` is the
uncaught `RangeError` thrown by `crypto.timingSafeEqual` (which Fastify turns
into a 500), while `storeFailed` is the caught insert failure answered with an
explicit `reply.code(500)`. -/
inductive WebhookResponse where
  | missingSignature
  | secretNotConfigured
  | sigLengthError
  | invalidSignature
  | invalidJson
  | invalidPayload
  | stored (webhookId : String)
  | storeFailed
deriving DecidableEq, Repr

/-- Whether a reply acknowledges the delivery as success (HTTP 200 with
`received: true, stored: true`).  Only `stored` does. -/
def isSuccess : WebhookResponse → Bool
  | .stored _ => true
  | _ => false

/-- The HTTP status code of each reply (500 for the uncaught `RangeError`,
Fastify's default for an exception escaping the handler). -/
def httpStatus : WebhookResponse → Nat
  | .missingSignature => 400
  | .secretNotConfigured => 500
  | .sigLengthError => 500
  | .invalidSignature => 401
  | .invalidJson => 400
  | .invalidPayload => 400
  | .stored _ => 200
  | .storeFailed => 500

/-- The `POST /api/webhooks/btcpay` handler of `webhookRoutes`.  `events` is
the current content of `webhook_events`; `genId` is the freshly generated
`webhook_${Date.now()}_${Math.random()...}` id; `insertThrows` models an
exogenous database error on the insert; `sigHeader` is the `btcpay-sig`
header, rejected with the 400 reply when falsy (`if (!signature)`: absent or
present but empty).  The signature comparison runs on the UTF-8 byte buffers
of the two strings, as `Buffer.from` does.  Returns the new table content and
the reply. -/
def handleWebhook (ext : ExtFns) (cfgs : List WebhookConfig)
    (events : List EventRow) (genId : String) (insertThrows : Bool)
    (sigHeader : Option String) (rawBody : String) :
    List EventRow × WebhookResponse :=
  match sigHeader with
  | none => (events, .missingSignature)
  | some signature =>
    if signature == "" then (events, .missingSignature)
    else
    match activeSecret cfgs with
    | none => (events, .secretNotConfigured)
    | some secret =>
      let expected := "sha256=" ++ ext.hmacHex secret rawBody
      match timingSafeEqual (strBytes signature) (strBytes expected) with
      | .error _ => (events, .sigLengthError)
      | .ok same =>
        if !same then (events, .invalidSignature)
        else
          match ext.parse rawBody with
          | none => (events, .invalidJson)
          | some .jsNull => (events, .invalidPayload)
          | some .nonObject => (events, .invalidPayload)
          | some (.obj ty inv sto) =>
            if insertThrows || events.any (fun e => e.id == genId) then
              (events, .storeFailed)
            else
              (events ++ [{ id := genId,
                            event_type := jsOrDefault ty "unknown",
                            invoice_id := jsOrNull inv,
                            store_id := jsOrNull sto,
                            payload := ext.stringify (.obj ty inv sto) }],
               .stored genId)

/-! ## The api-key route (src/core/src/api/routes.ts, lines 77-85, and
`BTCPayServer.getApiKey`, src/core/src/services/btcpay.ts, lines 291-306) -/

/-- JavaScript truthiness of a `string | undefined` value: `undefined` and the
empty string are falsy. -/
def truthy : Option String → Bool
  | none => false
  | some s => !s.isEmpty

/-- `BTCPayServer.getApiKey`: return the in-memory key when truthy, otherwise
load from the database; when the database value is truthy it becomes the
in-memory key and is returned, otherwise the (falsy) in-memory key is
returned. -/
def getApiKey (memKey dbKey : Option String) : Option String :=
  if truthy memKey then memKey
  else if truthy dbKey then dbKey
  else memKey

/-- The body of the `GET /btcpay/api-key` reply:
`{ configured: !!apiKey, key: apiKey ? 'configured' : null }`. -/
structure ApiKeyResponse where
  configured : Bool
  key : Option String
deriving DecidableEq, Repr

/-- The `GET /btcpay/api-key` handler as a function of the stored state. -/
def apiKeyRoute (memKey dbKey : Option String) : ApiKeyResponse :=
  let apiKey := getApiKey memKey dbKey
  { configured := truthy apiKey
    key := if truthy apiKey then some "configured" else none }

/-! ## getWebhookStatus (src/core/src/services/btcpay.ts, lines 60-68 and
740-807) -/

/-- `BTCPayServer.REQUIRED_WEBHOOK_EVENTS`. -/
def REQUIRED_WEBHOOK_EVENTS : List String :=
  ["InvoiceCreated", "InvoiceReceivedPayment", "InvoiceProcessing",
   "InvoiceExpired", "InvoiceSettled", "InvoiceInvalid",
   "InvoicePaymentSettled"]

/-- One webhook as returned by `getWebhooks` (the optional secret plays no
role in `getWebhookStatus`). -/
structure WebhookData where
  id : String
  url : String
  events : List String
  active : Bool
deriving DecidableEq, Repr

/-- The `WebhookStatus` result shape. -/
structure WebhookStatusR where
  webhooks : List WebhookData
  requiredEvents : List String
  missingEvents : List String
  setupComplete : Bool
  errorMsgs : List String
deriving DecidableEq, Repr

/-- `BTCPayServer.getWebhookStatus(webhookUrl)`.  `fetched` is the outcome of
`await this.getWebhooks()` (`Except.error` = the call threw, landing in the
catch block).  Mirrors the source: empty list and no-URL-match short-circuits,
then the covered-events set built from the active matching webhooks, then
`missingEvents = requiredEvents.filter(e => !covered.has(e))` and
`setupComplete = missingEvents.length === 0`. -/
def getWebhookStatus (fetched : Except String (List WebhookData))
    (webhookUrl : String) : WebhookStatusR :=
  match fetched with
  | .error e =>
    { webhooks := []
      requiredEvents := REQUIRED_WEBHOOK_EVENTS
      missingEvents := REQUIRED_WEBHOOK_EVENTS
      setupComplete := false
      errorMsgs := ["Failed to check webhook status: " ++ e] }
  | .ok existing =>
    if existing.isEmpty then
      { webhooks := []
        requiredEvents := REQUIRED_WEBHOOK_EVENTS
        missingEvents := REQUIRED_WEBHOOK_EVENTS
        setupComplete := false
        errorMsgs := [] }
    else
      let ours := existing.filter (fun w => w.url == webhookUrl)
      if ours.isEmpty then
        { webhooks := existing
          requiredEvents := REQUIRED_WEBHOOK_EVENTS
          missingEvents := REQUIRED_WEBHOOK_EVENTS
          setupComplete := false
          errorMsgs := [] }
      else
        let covered := (ours.filter (fun w => w.active)).flatMap (fun w => w.events)
        let missing := REQUIRED_WEBHOOK_EVENTS.filter
          (fun e => !(covered.contains e))
        { webhooks := existing
          requiredEvents := REQUIRED_WEBHOOK_EVENTS
          missingEvents := missing
          setupComplete := missing.isEmpty
          errorMsgs := [] }

/-- Whether a required event is covered by some active webhook registered for
the queried url, read off the full webhook list. -/
def eventCovered (whs : List WebhookData) (url ev : String) : Bool :=
  whs.any (fun w => w.url == url && w.active && w.events.contains ev)

/-! ## The Invoice Aggregator's derived status

The Invoice Aggregator is not implemented under `src/core`; the repository
contains only its design documents.  Its derivation rule is therefore modelled
from the specification.
-/

/-- The six reconciliation status values of the specification. -/
inductive RecStatus where
  | pending
  | full
  | partialPaid
  | overpaid
  | invalidated
  | failed
deriving DecidableEq, Repr

/-- The upstream state of an invoice as the derivation reads it:
terminal-settled, terminal-expired (cancelled/expired upstream), or not yet
terminal. -/
inductive InvoiceState where
  | settled
  | expired
  | active
deriving DecidableEq, Repr

/-- Modelled from the spec: the Invoice Aggregator that derives
`reconciliationStatus` is missing from the source tree, so this follows
section 4.2 step 3 of the specification literally.  `full` when `paidAmount`
is within the inclusive plus-or-minus 1 percent band of `invoiceAmount` and
the invoice is terminal-settled; `partial` when `paidAmount` is below 99
percent and the invoice is not settled; `overpaid` above 101 percent;
`invalidated` only for a cancelled/expired invoice with zero confirmed
payment — a terminal-expired invoice with a positive paid amount is instead
evaluated as partial/full/overpaid from the aggregate amounts; otherwise the
invoice stays `pending`. -/
def reconciliationStatus (invoiceAmount paidAmount : ℚ) (st : InvoiceState) :
    RecStatus :=
  if st = .expired then
    if paidAmount = 0 then .invalidated
    else if paidAmount < 99 / 100 * invoiceAmount then .partialPaid
    else if paidAmount ≤ 101 / 100 * invoiceAmount then .full
    else .overpaid
  else if 101 / 100 * invoiceAmount < paidAmount then .overpaid
  else if st = .settled then
    if 99 / 100 * invoiceAmount ≤ paidAmount then .full else .pending
  else
    if paidAmount < 99 / 100 * invoiceAmount then .partialPaid else .pending

/-! ## Concrete inputs used by the theorems below -/

/-- Concrete external functions for runs of the handler: a dummy digest and a
parser returning a fixed settlement object. -/
def extSettle : ExtFns :=
  { hmacHex := fun _ _ => "d1a2"
    parse := fun _ => some (.obj (some "InvoiceSettled") (some "INV-1") (some "S1"))
    stringify := fun _ => "payload-json" }

/-- A single active webhook config with secret `sek`. -/
def cfgsOne : List WebhookConfig :=
  [{ id := "wh1", secret := "sek", active := true }]

/-- A completed reconciliation row for invoice INV-1. -/
def rowInv1 : ReconRow :=
  { id := "r1", btcpay_invoice_id := some "INV-1",
    quickbooks_transaction_id := some "QB-1", amount_sats := 250000,
    amount_fiat := 10000, currency := "USD", status := "completed",
    error_message := none }

/-- A second row for the same invoice INV-1 with a different status. -/
def rowInv1Pending : ReconRow :=
  { id := "r2", btcpay_invoice_id := some "INV-1",
    quickbooks_transaction_id := none, amount_sats := 250000,
    amount_fiat := 10000, currency := "USD", status := "pending",
    error_message := none }

/-- A row for a different invoice INV-2. -/
def rowInv2 : ReconRow :=
  { id := "r3", btcpay_invoice_id := some "INV-2",
    quickbooks_transaction_id := some "QB-2", amount_sats := 100,
    amount_fiat := 4, currency := "USD", status := "completed",
    error_message := none }

/-- A row with status `processing`, admitted by the CHECK constraint. -/
def rowProcessing : ReconRow :=
  { id := "r4", btcpay_invoice_id := some "INV-3",
    quickbooks_transaction_id := none, amount_sats := 1,
    amount_fiat := 1, currency := "USD", status := "processing",
    error_message := none }

/-- Concrete external functions whose digest has the genuine 64-hex-character
length of SHA-256. -/
def ext64 : ExtFns :=
  { hmacHex := fun _ _ => String.mk (List.replicate 64 'a')
    parse := fun _ => some (.obj (some "InvoiceSettled") (some "INV-1") (some "S1"))
    stringify := fun _ => "payload-json" }

/-! ## Helper lemmas -/

/-- The work of the constant-time comparison is determined by the buffer
length alone: on equal-length buffers it always performs exactly one step per
byte, regardless of content. -/
lemma ctCompare_steps : ∀ (a b : List Nat), a.length = b.length →
    (ctCompare a b).1 = a.length
  | [], [], _ => rfl
  | x :: xs, y :: ys, h => by
    simp only [ctCompare, List.length_cons]
    rw [ctCompare_steps xs ys (by simpa using h)]
  | [], _ :: _, h => by simp at h
  | _ :: _, [], h => by simp at h

/-- The constant-time comparison decides equality. -/
lemma ctCompare_eq_true_iff : ∀ (a b : List Nat), ((ctCompare a b).2 = true) ↔ a = b
  | [], [] => by simp [ctCompare]
  | [], _ :: _ => by simp [ctCompare]
  | _ :: _, [] => by simp [ctCompare]
  | x :: xs, y :: ys => by
    simp [ctCompare, Bool.and_eq_true, beq_iff_eq, ctCompare_eq_true_iff xs ys]

/-- Comparing a buffer with itself succeeds. -/
lemma ctCompare_self (a : List Nat) : (ctCompare a a).2 = true :=
  (ctCompare_eq_true_iff a a).2 rfl

/-- `timingSafeEqual` on identical buffers returns `ok true`. -/
lemma timingSafeEqual_self (a : List Nat) : timingSafeEqual a a = .ok true := by
  unfold timingSafeEqual
  rw [if_pos rfl, ctCompare_self]

/-- `timingSafeEqual` on equal-length distinct buffers returns `ok false`. -/
lemma timingSafeEqual_neq (a b : List Nat) (hlen : a.length = b.length)
    (hne : a ≠ b) : timingSafeEqual a b = .ok false := by
  unfold timingSafeEqual
  rw [if_pos hlen]
  cases hq : (ctCompare a b).2 with
  | false => rfl
  | true => exact absurd ((ctCompare_eq_true_iff a b).1 hq) hne

/-- A character encodes to at least one byte. -/
lemma utf8Encode_ne_nil (c : Char) : utf8Encode c ≠ [] := by
  unfold utf8Encode
  split_ifs <;> simp

/-- The first byte of a UTF-8 encoding determines how many bytes the encoded
character occupies (the ranges of lead bytes of 1-, 2-, 3- and 4-byte
encodings are disjoint). -/
lemma utf8Encode_length_eq (c1 c2 : Char)
    (h : (utf8Encode c1).head? = (utf8Encode c2).head?) :
    (utf8Encode c1).length = (utf8Encode c2).length := by
  unfold utf8Encode at h ⊢
  split_ifs at h ⊢ <;> (try simp_all) <;> omega

/-- UTF-8 encoding of a single character is injective. -/
lemma utf8Encode_injective (c1 c2 : Char) (h : utf8Encode c1 = utf8Encode c2) :
    c1 = c2 := by
  have hn : c1.toNat = c2.toNat := by
    unfold utf8Encode at h
    split_ifs at h <;> (try simp_all) <;> omega
  exact Char.ext (UInt32.toNat.inj hn)

/-- UTF-8 is a prefix code, so encoding a character sequence is injective. -/
lemma flatMap_utf8_injective : ∀ (l1 l2 : List Char),
    l1.flatMap utf8Encode = l2.flatMap utf8Encode → l1 = l2
  | [], [], _ => rfl
  | [], c :: cs, h => by
    exfalso
    cases he : utf8Encode c with
    | nil => exact utf8Encode_ne_nil c he
    | cons b t =>
      simp only [List.flatMap_cons, he] at h
      simp at h
  | c :: cs, [], h => by
    exfalso
    cases he : utf8Encode c with
    | nil => exact utf8Encode_ne_nil c he
    | cons b t =>
      simp only [List.flatMap_cons, he] at h
      simp at h
  | c1 :: cs1, c2 :: cs2, h => by
    simp only [List.flatMap_cons] at h
    obtain ⟨b1, t1, e1⟩ := List.exists_cons_of_ne_nil (utf8Encode_ne_nil c1)
    obtain ⟨b2, t2, e2⟩ := List.exists_cons_of_ne_nil (utf8Encode_ne_nil c2)
    have h' := h
    rw [e1, e2, List.cons_append, List.cons_append] at h'
    injection h' with hb _
    have hlen : (utf8Encode c1).length = (utf8Encode c2).length := by
      apply utf8Encode_length_eq
      rw [e1, e2, hb]
      rfl
    obtain ⟨henc, hrest⟩ := List.append_inj h hlen
    rw [utf8Encode_injective c1 c2 henc, flatMap_utf8_injective cs1 cs2 hrest]

/-- `Buffer.from` is injective on strings: equal byte sequences come from
equal strings. -/
lemma strBytes_injective (s1 s2 : String) (h : strBytes s1 = strBytes s2) :
    s1 = s2 :=
  String.ext (flatMap_utf8_injective _ _ h)

/-- Byte sequences concatenate along string concatenation. -/
lemma strBytes_append (a b : String) :
    strBytes (a ++ b) = strBytes a ++ strBytes b := by
  unfold strBytes
  rw [String.data_append a b, List.flatMap_append]

/-- The expected signature string is never the empty string, so it always
passes the falsiness check. -/
lemma sha256_append_ne_empty (h : String) : (("sha256=" ++ h) == "") = false := by
  rw [beq_eq_false_iff_ne]
  intro he
  have hl := congrArg String.length he
  rw [String.length_append] at hl
  rw [show ("sha256=" : String).length = 7 from rfl,
    show ("" : String).length = 0 from rfl] at hl
  omega

/-- The byte length of the expected signature string: the 7 ASCII bytes of
`sha256=` plus the byte length of the digest. -/
lemma strBytes_sha256_append_length (h : String) :
    (strBytes ("sha256=" ++ h)).length = 7 + (strBytes h).length := by
  rw [strBytes_append, List.length_append]
  rw [show (strBytes "sha256=").length = 7 from rfl]

/-- Membership in the covered-event list built by `getWebhookStatus` agrees
with `eventCovered` read off the raw webhook list. -/
lemma mem_covered_iff (whs : List WebhookData) (url e : String) :
    (((whs.filter (fun w => w.url == url)).filter (fun w => w.active)).flatMap
      (fun w => w.events)).contains e = eventCovered whs url e := by
  rw [Bool.eq_iff_iff]
  simp only [List.contains_iff_exists_mem_beq, List.mem_flatMap, List.mem_filter,
    eventCovered, List.any_eq_true, Bool.and_eq_true, beq_iff_eq]
  aesop

/-! ## The claims -/

/-- Claim C1 (code bug): the handler does not deduplicate by the upstream
delivery id.  Processing the same delivery twice (identical raw body and
signature, hence the same upstream delivery id inside the payload) inserts two
`webhook_events` rows under two freshly generated ids and acknowledges both
deliveries as success, contradicting the schema comment that `webhook_events.id`
is the BTCPayServer delivery id and the exactly-one-row-per-delivery-id
property. -/
theorem duplicate_delivery_inserts_two_rows :
    (let r1 := handleWebhook extSettle cfgsOne [] "webhook_1700000000001_k3t9qa2xf" false
       (some "sha256=d1a2") "dup-delivery-body"
     let r2 := handleWebhook extSettle cfgsOne r1.1 "webhook_1700000000452_p8vm1wz0h" false
       (some "sha256=d1a2") "dup-delivery-body"
     r1.1.length = 1 ∧ isSuccess r1.2 = true ∧
     r2.1.length = 2 ∧ isSuccess r2.2 = true ∧
     r2.1.map EventRow.invoice_id = [some "INV-1", some "INV-1"]) := by
  decide

/-- Claim C2: a request whose signature does not equal the HMAC recomputed
from the stored active webhook secret never reaches the insert: the table is
unchanged, the reply is never the success acknowledgment (its HTTP status is
not 200), and the byte comparison performs a number of steps depending only on
the buffer length, never on the contents. -/
theorem webhook_bad_signature_rejected
    (ext : ExtFns) (cfgs : List WebhookConfig) (events : List EventRow)
    (genId : String) (insertThrows : Bool) (sig rawBody secret : String)
    (hsec : activeSecret cfgs = some secret)
    (hbad : sig ≠ "sha256=" ++ ext.hmacHex secret rawBody) :
    (handleWebhook ext cfgs events genId insertThrows (some sig) rawBody).1 = events ∧
    isSuccess (handleWebhook ext cfgs events genId insertThrows (some sig) rawBody).2 = false ∧
    httpStatus (handleWebhook ext cfgs events genId insertThrows (some sig) rawBody).2 ≠ 200 ∧
    (∀ a b : List Nat, a.length = b.length → (ctCompare a b).1 = a.length) := by
  by_cases hemp : (sig == "") = true
  · simp only [handleWebhook]
    rw [if_pos hemp]
    exact ⟨rfl, rfl, by simp [httpStatus], ctCompare_steps⟩
  · have hempF : (sig == "") = false := by
      cases hq : sig == ""
      · rfl
      · exact absurd hq hemp
    have hdata : strBytes sig ≠ strBytes ("sha256=" ++ ext.hmacHex secret rawBody) :=
      fun h => hbad (strBytes_injective _ _ h)
    simp only [handleWebhook, hempF, Bool.false_eq_true, if_false, hsec, timingSafeEqual]
    by_cases hlen : (strBytes sig).length =
        (strBytes ("sha256=" ++ ext.hmacHex secret rawBody)).length
    · rw [if_pos hlen]
      have hfalse : (ctCompare (strBytes sig)
          (strBytes ("sha256=" ++ ext.hmacHex secret rawBody))).2 = false := by
        cases hq : (ctCompare (strBytes sig)
            (strBytes ("sha256=" ++ ext.hmacHex secret rawBody))).2
        · rfl
        · exact absurd ((ctCompare_eq_true_iff _ _).1 hq) hdata
      rw [hfalse]
      refine ⟨?_, ?_, ?_, ctCompare_steps⟩ <;> simp [isSuccess, httpStatus]
    · rw [if_neg hlen]
      refine ⟨?_, ?_, ?_, ctCompare_steps⟩ <;> simp [isSuccess, httpStatus]

/-- Claim C2, witness: at a concrete store with secret `sek` and the wrong
signature `sha256=XXXX`, the hypotheses hold and the theorem applies. -/
theorem webhook_bad_signature_rejected_witness :
    (activeSecret cfgsOne = some "sek" ∧
     "sha256=XXXX" ≠ "sha256=" ++ extSettle.hmacHex "sek" "body-1") ∧
    ((handleWebhook extSettle cfgsOne [] "id1" false (some "sha256=XXXX") "body-1").1 = [] ∧
     isSuccess (handleWebhook extSettle cfgsOne [] "id1" false (some "sha256=XXXX") "body-1").2 = false ∧
     httpStatus (handleWebhook extSettle cfgsOne [] "id1" false (some "sha256=XXXX") "body-1").2 ≠ 200 ∧
     (∀ a b : List Nat, a.length = b.length → (ctCompare a b).1 = a.length)) :=
  ⟨⟨by decide, by decide⟩,
   webhook_bad_signature_rejected extSettle cfgsOne [] "id1" false "sha256=XXXX" "body-1" "sek"
     (by decide) (by decide)⟩
/-- Claim C3 (modelled from the spec): the derived status maps a paid amount
of exactly 99 percent of the invoice amount on a terminal-settled invoice to
`full` (the band boundary is inclusive), a paid amount of 98.9 percent on any
unsettled invoice to `partial`, and any paid amount strictly above 101 percent
to `overpaid`. -/
theorem reconciliationStatus_tolerance_band (invA paid : ℚ) (hpos : 0 < invA) :
    reconciliationStatus invA (99 / 100 * invA) .settled = .full ∧
    (∀ st, st ≠ InvoiceState.settled →
      reconciliationStatus invA (989 / 1000 * invA) st = .partialPaid) ∧
    (∀ st, 101 / 100 * invA < paid → reconciliationStatus invA paid st = .overpaid) := by
  refine ⟨?_, ?_, ?_⟩
  · unfold reconciliationStatus
    rw [if_neg (by decide : ¬ (InvoiceState.settled = InvoiceState.expired))]
    rw [if_neg (by intro h; nlinarith : ¬ (101 / 100 * invA < 99 / 100 * invA))]
    rw [if_pos rfl, if_pos (le_refl _)]
  · intro st hst
    unfold reconciliationStatus
    cases st with
    | settled => exact absurd rfl hst
    | expired =>
      rw [if_pos rfl]
      rw [if_neg (by intro h; nlinarith : ¬ (989 / 1000 * invA = 0))]
      rw [if_pos (by nlinarith : 989 / 1000 * invA < 99 / 100 * invA)]
    | active =>
      rw [if_neg (by decide : ¬ (InvoiceState.active = InvoiceState.expired))]
      rw [if_neg (by intro h; nlinarith : ¬ (101 / 100 * invA < 989 / 1000 * invA))]
      rw [if_neg (by decide : ¬ (InvoiceState.active = InvoiceState.settled))]
      rw [if_pos (by nlinarith : 989 / 1000 * invA < 99 / 100 * invA)]
  · intro st hover
    unfold reconciliationStatus
    cases st with
    | settled =>
      rw [if_neg (by decide : ¬ (InvoiceState.settled = InvoiceState.expired))]
      rw [if_pos hover]
    | active =>
      rw [if_neg (by decide : ¬ (InvoiceState.active = InvoiceState.expired))]
      rw [if_pos hover]
    | expired =>
      rw [if_pos rfl]
      rw [if_neg (by intro h; rw [h] at hover; nlinarith : ¬ (paid = 0))]
      rw [if_neg (by intro h; nlinarith : ¬ (paid < 99 / 100 * invA))]
      rw [if_neg (by intro h; nlinarith : ¬ (paid ≤ 101 / 100 * invA))]

/-- Claim C3, witness: the tolerance boundaries at a 100-unit invoice and a
102-unit overpayment. -/
theorem reconciliationStatus_tolerance_band_witness :
    (0 < (100 : ℚ)) ∧
    (reconciliationStatus 100 (99 / 100 * 100) .settled = .full ∧
     (∀ st, st ≠ InvoiceState.settled →
       reconciliationStatus 100 (989 / 1000 * 100) st = .partialPaid) ∧
     (∀ st, 101 / 100 * 100 < (102 : ℚ) →
       reconciliationStatus 100 102 st = .overpaid)) :=
  ⟨by norm_num, reconciliationStatus_tolerance_band 100 102 (by norm_num)⟩

/-- Claim C4 (modelled from the spec): a terminal-expired invoice with a
positive confirmed paid amount is never `invalidated`; the derivation yields
one of `partial`, `full`, `overpaid` from the aggregate amounts. -/
theorem expired_with_payment_never_invalidated (invA paid : ℚ) (hp : 0 < paid) :
    reconciliationStatus invA paid .expired ≠ .invalidated ∧
    (reconciliationStatus invA paid .expired = .partialPaid ∨
     reconciliationStatus invA paid .expired = .full ∨
     reconciliationStatus invA paid .expired = .overpaid) := by
  unfold reconciliationStatus
  rw [if_pos rfl]
  rw [if_neg (by intro h; rw [h] at hp; exact lt_irrefl 0 hp : ¬ (paid = 0))]
  by_cases h1 : paid < 99 / 100 * invA
  · rw [if_pos h1]
    exact ⟨by decide, Or.inl rfl⟩
  · rw [if_neg h1]
    by_cases h2 : paid ≤ 101 / 100 * invA
    · rw [if_pos h2]
      exact ⟨by decide, Or.inr (Or.inl rfl)⟩
    · rw [if_neg h2]
      exact ⟨by decide, Or.inr (Or.inr rfl)⟩

/-- Claim C4, witness: an invoice of 100 that expired after a payment of 50. -/
theorem expired_with_payment_never_invalidated_witness :
    (0 < (50 : ℚ)) ∧
    (reconciliationStatus 100 50 .expired ≠ .invalidated ∧
     (reconciliationStatus 100 50 .expired = .partialPaid ∨
      reconciliationStatus 100 50 .expired = .full ∨
      reconciliationStatus 100 50 .expired = .overpaid)) :=
  ⟨by norm_num, expired_with_payment_never_invalidated 100 50 (by norm_num)⟩
/-- Claim C5, counterexample: with one completed reconciliation row for
invoice INV-1 in the table, a second row for the same invoice with a
different status is rejected by the UNIQUE constraint on `btcpay_invoice_id`,
so a different reconciliation status for the same invoice is not a new
idempotency key that may produce its own success row. -/
theorem recon_second_status_row_rejected :
    rowInv1.btcpay_invoice_id = rowInv1Pending.btcpay_invoice_id ∧
    (rowInv1.status == rowInv1Pending.status) = false ∧
    insertSucceeds [rowInv1] rowInv1Pending = false ∧
    insertReconciliation [rowInv1] rowInv1Pending =
      .error "UNIQUE constraint failed: reconciliations.btcpay_invoice_id" := by
  exact ⟨rfl, by decide, by decide, rfl⟩

/-- Claim C5 (amended): the persistence layer keys reconciliation records by
the invoice id alone.  A successful insert preserves the
one-row-per-invoice-id invariant, and no row can ever be inserted for an
invoice id already present, whatever its status — so at most one record (in
particular at most one successful one) exists per invoice. -/
theorem recon_one_row_per_invoice
    (t : List ReconRow) (r : ReconRow) (t' : List ReconRow)
    (hdist : invoiceIdsDistinct t)
    (hins : insertReconciliation t r = .ok t') :
    invoiceIdsDistinct t' ∧
    (∀ q ∈ t, ∀ i, q.btcpay_invoice_id = some i → r.btcpay_invoice_id ≠ some i) := by
  unfold insertReconciliation at hins
  split_ifs at hins with h1 h2 h3 h4
  have ht' : t' = t ++ [r] := by
    simpa using hins.symm
  subst ht'
  have hkey : ∀ q ∈ t, ∀ i, q.btcpay_invoice_id = some i → r.btcpay_invoice_id ≠ some i := by
    intro q hq i hqi hri
    apply h3
    rw [Bool.and_eq_true]
    refine ⟨by rw [hri]; rfl, ?_⟩
    refine List.any_eq_true.2 ⟨q, hq, ?_⟩
    simp [hqi, hri]
  refine ⟨?_, hkey⟩
  rw [invoiceIdsDistinct, List.pairwise_append]
  refine ⟨hdist, by simp, ?_⟩
  intro a ha b hb
  have hbr : b = r := by simpa using hb
  subst hbr
  exact hkey a ha

/-- Claim C5 (amended), witness: inserting a row for a fresh invoice INV-2
next to the INV-1 row succeeds and keeps the invariant. -/
theorem recon_one_row_per_invoice_witness :
    (invoiceIdsDistinct [rowInv1] ∧
     insertReconciliation [rowInv1] rowInv2 = .ok ([rowInv1] ++ [rowInv2])) ∧
    (invoiceIdsDistinct ([rowInv1] ++ [rowInv2]) ∧
     (∀ q ∈ [rowInv1], ∀ i, q.btcpay_invoice_id = some i →
       rowInv2.btcpay_invoice_id ≠ some i)) :=
  ⟨⟨by simp [invoiceIdsDistinct], rfl⟩,
   recon_one_row_per_invoice [rowInv1] rowInv2 ([rowInv1] ++ [rowInv2])
     (by simp [invoiceIdsDistinct]) rfl⟩

/-- Claim C6, counterexample: the persistence layer admits the status value
`processing`, which is not one of the six specification enum values, and
rejects the specification value `full`; the stored status set is not the
specification set. -/
theorem recon_status_enum_mismatch :
    reconStatusAllowed "processing" = true ∧
    (["pending", "full", "partial", "overpaid", "invalidated",
      "failed"].contains "processing") = false ∧
    reconStatusAllowed "full" = false ∧
    insertSucceeds [] rowProcessing = true := by
  decide

/-- Claim C6 (amended): every status value the `reconciliations` table admits
is one of the four CHECK-constraint values `pending`, `processing`,
`completed`, `failed`, and each of those four is insertable. -/
theorem recon_status_check_constraint
    (t : List ReconRow) (r : ReconRow) (t' : List ReconRow)
    (hins : insertReconciliation t r = .ok t') :
    (r.status = "pending" ∨ r.status = "processing" ∨ r.status = "completed" ∨
      r.status = "failed") ∧
    (["pending", "processing", "completed", "failed"].all
      (fun s => insertSucceeds []
        { rowProcessing with status := s, btcpay_invoice_id := none }) = true) := by
  refine ⟨?_, by decide⟩
  unfold insertReconciliation at hins
  split_ifs at hins with h1 h2 h3 h4
  have hall : reconStatusAllowed r.status = true := by
    cases hs : reconStatusAllowed r.status
    · exact absurd (by rw [hs]; rfl) h1
    · rfl
  simp only [reconStatusAllowed, Bool.or_eq_true, beq_iff_eq] at hall
  tauto

/-- Claim C6 (amended), witness: the insert of the `processing` row into the
empty table succeeds, so the theorem applies to it. -/
theorem recon_status_check_constraint_witness :
    (insertReconciliation [] rowProcessing = .ok ([] ++ [rowProcessing])) ∧
    ((rowProcessing.status = "pending" ∨ rowProcessing.status = "processing" ∨
      rowProcessing.status = "completed" ∨ rowProcessing.status = "failed") ∧
     (["pending", "processing", "completed", "failed"].all
       (fun s => insertSucceeds []
         { rowProcessing with status := s, btcpay_invoice_id := none }) = true)) :=
  ⟨rfl, recon_status_check_constraint [] rowProcessing ([] ++ [rowProcessing]) rfl⟩
/-- Claim C7: once the signature validates (the header carries exactly the
recomputed `sha256=` digest), the handler acknowledges success if and only if
the insert into `webhook_events` completed (exactly one row was appended);
when the insert throws, the reply is the explicit 500, never success. -/
theorem webhook_ack_iff_persisted
    (ext : ExtFns) (cfgs : List WebhookConfig) (events : List EventRow)
    (genId : String) (insertThrows : Bool) (rawBody secret : String)
    (hsec : activeSecret cfgs = some secret) :
    (let r := handleWebhook ext cfgs events genId insertThrows
        (some ("sha256=" ++ ext.hmacHex secret rawBody)) rawBody
     (isSuccess r.2 = true ↔ r.1.length = events.length + 1) ∧
     (isSuccess r.2 = false → r.1 = events) ∧
     (∀ ty inv sto, ext.parse rawBody = some (.obj ty inv sto) →
       insertThrows = true → r.2 = .storeFailed ∧ httpStatus r.2 = 500)) := by
  have hne := sha256_append_ne_empty (ext.hmacHex secret rawBody)
  cases hp : ext.parse rawBody with
  | none =>
    simp [handleWebhook, hne, hsec, timingSafeEqual_self, hp, isSuccess, httpStatus]
  | some v =>
    cases v with
    | jsNull =>
      simp [handleWebhook, hne, hsec, timingSafeEqual_self, hp, isSuccess, httpStatus]
    | nonObject =>
      simp [handleWebhook, hne, hsec, timingSafeEqual_self, hp, isSuccess, httpStatus]
    | obj a b c =>
      by_cases hguard : (insertThrows || events.any fun e => e.id == genId) = true
      · simp [handleWebhook, hne, hsec, timingSafeEqual_self, hp, hguard, isSuccess,
          httpStatus]
      · have hit : insertThrows = false := by
          cases hI : insertThrows
          · rfl
          · exact absurd (by rw [hI, Bool.true_or]) hguard
        have hany : (events.any fun e => e.id == genId) = false := by
          cases hA : events.any fun e => e.id == genId
          · rfl
          · exact absurd (by rw [hit, Bool.false_or]; exact hA) hguard
        simp [handleWebhook, hne, hsec, timingSafeEqual_self, hp, hit, hany, isSuccess,
          httpStatus, List.length_append]

/-- Claim C7, witness: a correctly signed delivery against the concrete store
with secret `sek`. -/
theorem webhook_ack_iff_persisted_witness :
    (activeSecret cfgsOne = some "sek") ∧
    (let r := handleWebhook extSettle cfgsOne [] "idW" false
        (some ("sha256=" ++ extSettle.hmacHex "sek" "body-w")) "body-w"
     (isSuccess r.2 = true ↔ r.1.length = ([] : List EventRow).length + 1) ∧
     (isSuccess r.2 = false → r.1 = ([] : List EventRow)) ∧
     (∀ ty inv sto, extSettle.parse "body-w" = some (.obj ty inv sto) →
       false = true → r.2 = .storeFailed ∧ httpStatus r.2 = 500)) :=
  ⟨by decide, webhook_ack_iff_persisted extSettle cfgsOne [] "idW" false "body-w" "sek"
    (by decide)⟩

/-- Claim C8: a present, non-empty `btcpay-sig` header whose UTF-8 byte
length differs from the 71 bytes of the expected string (`sha256=` plus 64
hex characters) makes `crypto.timingSafeEqual` throw its `RangeError`
(uncaught, a 500) instead of reaching the 401 rejection branch; the clean 401
`Invalid signature` reply is produced exactly for wrong signatures of the
expected byte length.  A 71-character header containing a multi-byte
character has more than 71 bytes and therefore also throws; a
present-but-empty header is falsy and is answered 400 before the
comparison. -/
theorem webhook_sig_length_mismatch_throws
    (ext : ExtFns) (cfgs : List WebhookConfig) (events : List EventRow)
    (genId : String) (insertThrows : Bool) (sig rawBody secret : String)
    (hsec : activeSecret cfgs = some secret)
    (hlen64 : (strBytes (ext.hmacHex secret rawBody)).length = 64) :
    ((sig == "") = false → (strBytes sig).length ≠ 71 →
      (handleWebhook ext cfgs events genId insertThrows (some sig) rawBody).2 =
        .sigLengthError) ∧
    ((strBytes sig).length = 71 → sig ≠ "sha256=" ++ ext.hmacHex secret rawBody →
      (handleWebhook ext cfgs events genId insertThrows (some sig) rawBody).2 =
        .invalidSignature) := by
  have hexp : (strBytes ("sha256=" ++ ext.hmacHex secret rawBody)).length = 71 := by
    rw [strBytes_sha256_append_length, hlen64]
  constructor
  · intro hempF hne
    have hd : ¬ ((strBytes sig).length =
        (strBytes ("sha256=" ++ ext.hmacHex secret rawBody)).length) := by
      rw [hexp]
      exact hne
    simp only [handleWebhook, hempF, Bool.false_eq_true, if_false, hsec, timingSafeEqual]
    rw [if_neg hd]
  · intro hl hbad
    have hempF : (sig == "") = false := by
      cases hq : sig == ""
      · rfl
      · exfalso
        rw [beq_iff_eq.1 hq] at hl
        exact absurd hl (by decide)
    have hd : (strBytes sig).length =
        (strBytes ("sha256=" ++ ext.hmacHex secret rawBody)).length := by
      rw [hl, hexp]
    have hds : strBytes sig ≠ strBytes ("sha256=" ++ ext.hmacHex secret rawBody) :=
      fun hh => hbad (strBytes_injective _ _ hh)
    simp only [handleWebhook, hempF, Bool.false_eq_true, if_false, hsec,
      timingSafeEqual_neq _ _ hd hds]
    rfl

/-- Claim C8, witness: with a genuine 64-hex-byte digest, the short header
`short-sig` (9 bytes) makes the comparison throw. -/
theorem webhook_sig_length_mismatch_throws_witness :
    (activeSecret cfgsOne = some "sek" ∧
     (strBytes (ext64.hmacHex "sek" "body-z")).length = 64) ∧
    (((("short-sig" : String) == "") = false → (strBytes "short-sig").length ≠ 71 →
      (handleWebhook ext64 cfgsOne [] "idZ" false (some "short-sig") "body-z").2 =
        .sigLengthError) ∧
     ((strBytes "short-sig").length = 71 →
      "short-sig" ≠ "sha256=" ++ ext64.hmacHex "sek" "body-z" →
      (handleWebhook ext64 cfgsOne [] "idZ" false (some "short-sig") "body-z").2 =
        .invalidSignature)) :=
  ⟨⟨by decide, by decide⟩,
   webhook_sig_length_mismatch_throws ext64 cfgsOne [] "idZ" false "short-sig" "body-z" "sek"
     (by decide) (by decide)⟩

/-- Claim C9: the api-key route reveals only presence.  Any two stored states
with a truthy key produce the identical reply whose `key` field is the literal
`configured`; the stored key characters never reach the reply, and the reply
differs only between the key-present and key-absent states. -/
theorem apiKey_response_masks_key (m1 d1 m2 d2 : Option String)
    (h1 : truthy (getApiKey m1 d1) = true)
    (h2 : truthy (getApiKey m2 d2) = true) :
    apiKeyRoute m1 d1 = apiKeyRoute m2 d2 ∧
    (apiKeyRoute m1 d1).configured = true ∧
    (apiKeyRoute m1 d1).key = some "configured" ∧
    (∀ m d, truthy (getApiKey m d) = false →
      (apiKeyRoute m d).key = none ∧ (apiKeyRoute m d).configured = false ∧
      apiKeyRoute m d ≠ apiKeyRoute m1 d1) := by
  have e1 : apiKeyRoute m1 d1 = ⟨true, some "configured"⟩ := by
    simp [apiKeyRoute, h1]
  have e2 : apiKeyRoute m2 d2 = ⟨true, some "configured"⟩ := by
    simp [apiKeyRoute, h2]
  refine ⟨by rw [e1, e2], by rw [e1], by rw [e1], ?_⟩
  intro m d h
  have e3 : apiKeyRoute m d = ⟨false, none⟩ := by
    simp [apiKeyRoute, h]
  refine ⟨by rw [e3], by rw [e3], by rw [e3, e1]; simp⟩

/-- Claim C9, witness: two distinct non-empty stored keys. -/
theorem apiKey_response_masks_key_witness :
    (truthy (getApiKey (some "key-alpha") none) = true ∧
     truthy (getApiKey (some "key-beta") none) = true) ∧
    (apiKeyRoute (some "key-alpha") none = apiKeyRoute (some "key-beta") none ∧
     (apiKeyRoute (some "key-alpha") none).configured = true ∧
     (apiKeyRoute (some "key-alpha") none).key = some "configured" ∧
     (∀ m d, truthy (getApiKey m d) = false →
       (apiKeyRoute m d).key = none ∧ (apiKeyRoute m d).configured = false ∧
       apiKeyRoute m d ≠ apiKeyRoute (some "key-alpha") none)) :=
  ⟨⟨by decide, by decide⟩,
   apiKey_response_masks_key (some "key-alpha") none (some "key-beta") none
     (by decide) (by decide)⟩

/-- Claim C10: `getWebhookStatus` computes `missingEvents` as exactly the
required events not covered by any active webhook registered for the queried
url; `setupComplete` equals the emptiness of `missingEvents` (so it is true
precisely when no required event is missing); on a lookup error the match
branch yields the full required list, hence `setupComplete` is false; and the
required list is the seven-element constant. -/
theorem getWebhookStatus_missing_events_correct
    (fetched : Except String (List WebhookData)) (url : String) :
    (getWebhookStatus fetched url).missingEvents =
      (match fetched with
       | .ok whs => REQUIRED_WEBHOOK_EVENTS.filter (fun e => !(eventCovered whs url e))
       | .error _ => REQUIRED_WEBHOOK_EVENTS) ∧
    (getWebhookStatus fetched url).setupComplete =
      (getWebhookStatus fetched url).missingEvents.isEmpty ∧
    (getWebhookStatus fetched url).requiredEvents = REQUIRED_WEBHOOK_EVENTS ∧
    REQUIRED_WEBHOOK_EVENTS =
      ["InvoiceCreated", "InvoiceReceivedPayment", "InvoiceProcessing",
       "InvoiceExpired", "InvoiceSettled", "InvoiceInvalid",
       "InvoicePaymentSettled"] := by
  cases fetched with
  | error e =>
    exact ⟨rfl, rfl, rfl, rfl⟩
  | ok existing =>
    by_cases hemp : existing.isEmpty = true
    · have hnil : existing = [] := by
        cases existing
        · rfl
        · exact absurd hemp (by simp)
      subst hnil
      simp [getWebhookStatus, eventCovered, REQUIRED_WEBHOOK_EVENTS]
    · have hempF : existing.isEmpty = false := by
        cases h : existing.isEmpty
        · rfl
        · exact absurd h hemp
      by_cases hours : (existing.filter (fun w => w.url == url)).isEmpty = true
      · have ho : existing.filter (fun w => w.url == url) = [] := by
          cases ho' : existing.filter (fun w => w.url == url)
          · rfl
          · rw [ho'] at hours
            exact absurd hours (by simp)
        have hcov : ∀ e, eventCovered existing url e = false := by
          intro e
          cases hc : eventCovered existing url e
          · rfl
          · unfold eventCovered at hc
            obtain ⟨w, hw, hcond⟩ := List.any_eq_true.1 hc
            have hmem : w ∈ existing.filter (fun w => w.url == url) := by
              rw [List.mem_filter]
              exact ⟨hw, by simp_all⟩
            rw [ho] at hmem
            exact absurd hmem (by simp)
        have hfilt : REQUIRED_WEBHOOK_EVENTS.filter
            (fun e => !(eventCovered existing url e)) = REQUIRED_WEBHOOK_EVENTS :=
          List.filter_eq_self.2 (fun a _ => by rw [hcov a]; rfl)
        simp only [getWebhookStatus, hempF, hours, Bool.false_eq_true, if_false,
          eq_self_iff_true, if_true]
        refine ⟨hfilt.symm, ?_, ?_, ?_⟩ <;> trivial
      · have hoursF : (existing.filter (fun w => w.url == url)).isEmpty = false := by
          cases h : (existing.filter (fun w => w.url == url)).isEmpty
          · rfl
          · exact absurd h hours
        have hfilt : REQUIRED_WEBHOOK_EVENTS.filter
            (fun e => !((((existing.filter (fun w => w.url == url)).filter
              (fun w => w.active)).flatMap (fun w => w.events)).contains e)) =
            REQUIRED_WEBHOOK_EVENTS.filter (fun e => !(eventCovered existing url e)) :=
          List.filter_congr (fun e _ => by rw [mem_covered_iff])
        simp only [getWebhookStatus, hempF, hoursF, Bool.false_eq_true, if_false]
        refine ⟨hfilt, ?_, ?_, ?_⟩ <;> trivial

end SovereignMerchant
